import Mathlib

/-!
Verification development for the fedibot-gpt repository (Go, two source
files: the main pipeline and the configuration file).

The Go code is shallowly embedded as follows.  Go strings are byte
strings manipulated only by length, slicing and concatenation, so they
are modelled as lists of characters (one list element per Go byte);
Go `len`, `s[:n]`, `s[n:]` and `+` become `List.length`, `List.take`,
`List.drop` and `++`.  Go `int` configuration limits are only ever
compared against lengths and are modelled as `Nat`.  Every external
call (status fetch by id, image fetch, completion request, status
create) is a blocking call into a collaborator and is modelled as an
oracle function passed in as a parameter; `Option` results model
transport failure.  Fallible extraction returns `Option`, with `none`
reserved for a Go runtime panic where the code performs an unchecked
type assertion.
-/

/-- Byte strings of the Go program. -/
abbrev Str := List Char

/-- Fragment of models.Account used by the program (only Acct is read). -/
structure Account where
  acct : Str
deriving DecidableEq, Repr

/-- Fragment of models.Attachment used by the program (only URL is read). -/
structure Attachment where
  url : Str
deriving DecidableEq, Repr

/-- One group of an interaction-policy category: the always-allowed list
and the requires-approval list of actor references. -/
structure InteractionGroup where
  always : List Str
  withApproval : List Str
deriving DecidableEq, Repr

/-- Fragment of models.InteractionPolicy used by the program. -/
structure InteractionPolicy where
  canFavourite : InteractionGroup
  canReblog : InteractionGroup
  canReply : InteractionGroup
deriving DecidableEq, Repr

/-- Fragment of models.Status read by the pipeline: identifier, rich
content, plain text, parent id, author account, attachments, language,
visibility, local-only flag, sensitivity flag, spoiler text and the
optional interaction policy. -/
structure Status where
  id : Str
  content : Str
  text : Str
  inReplyToID : Str
  account : Account
  mediaAttachments : List Attachment
  language : Str
  visibility : Str
  localOnly : Bool
  sensitive : Bool
  spoilerText : Str
  interactionPolicy : Option InteractionPolicy
deriving DecidableEq, Repr

instance : Inhabited Status :=
  ⟨⟨[], [], [], [], ⟨[]⟩, [], [], [], false, false, [], none⟩⟩

/-- Configuration fields of config.go read by the pipeline under
verification (the credential and model-name fields only feed the HTTP
transport, which is abstracted into the oracles). -/
structure Config where
  fediDomain : Str
  botAccountName : Str
  maxChar : Nat
  maxHistoryCount : Nat
  maxHistoryChar : Nat
  systemPrompt : Str
deriving DecidableEq, Repr

/-- Loop body of trimStackToMaxChar (main.go lines 122-131).  The Go
loop runs the index i from len(stack)-1 down to 0, adds
len(stack[i].Content) to the running total, and on the first overflow
returns stack[i+1:]; `total` is the running total before visiting
index `i`. -/
def trimLoop (maxHistoryChar : Nat) (stack : List Status) : Nat → Nat → List Status
  | 0, total =>
    if maxHistoryChar < total + ((stack.getD 0 default).content).length then stack.drop 1
    else stack
  | j + 1, total =>
    let t := total + ((stack.getD (j + 1) default).content).length
    if maxHistoryChar < t then stack.drop (j + 2)
    else trimLoop maxHistoryChar stack j t

/-- trimStackToMaxChar (main.go lines 122-131): scans the stack from its
last index (the oldest entry, since index 0 holds the leaf) toward
index 0, accumulating content lengths, and on the first overflow
returns stack[i+1:]; if no overflow occurs the whole stack is
returned.  An empty stack never enters the loop. -/
def trimStackToMaxChar (cfg : Config) (stack : List Status) : List Status :=
  match stack with
  | [] => []
  | _ :: _ => trimLoop cfg.maxHistoryChar stack (stack.length - 1) 0

/-- Ancestor-fetch loop of buildConversationStack (main.go lines
104-117).  The Go loop runs while len(stack) < MaxHistoryCount and the
current status has a non-empty InReplyToID; each iteration fetches the
parent (stopping on fetch failure) and appends it.  The fuel argument
is MaxHistoryCount minus the current stack length, so the loop
condition len(stack) < MaxHistoryCount is fuel > 0. -/
def resolveAncestors (fetch : Str → Option Status) : Nat → Status → List Status
  | 0, _ => []
  | n + 1, cur =>
    if cur.inReplyToID = [] then []
    else
      match fetch cur.inReplyToID with
      | none => []
      | some parent => parent :: resolveAncestors fetch n parent

/-- buildConversationStack (main.go lines 104-120): the stack starts as
the single leaf status, ancestors are appended while the count budget
allows, and the result is passed through trimStackToMaxChar. -/
def buildConversationStack (cfg : Config) (fetch : Str → Option Status) (status : Status) : List Status :=
  trimStackToMaxChar cfg (status :: resolveAncestors fetch (cfg.maxHistoryCount - 1) status)

/-- ImageContent of config.go: an inline image reference. -/
structure ImageContent where
  url : Str
  detail : Str
deriving DecidableEq, Repr

/-- ChatContent of config.go: one content part of a chat message.  The
Go struct leaves Text empty and ImageURL nil in the unused variant. -/
structure ChatContent where
  type : Str
  text : Str
  imageUrl : Option ImageContent
deriving DecidableEq, Repr

/-- Message of config.go: a role with a list of content parts. -/
structure Message where
  role : Str
  chatContent : List ChatContent
deriving DecidableEq, Repr

/-- Role string constants of the Go sources. -/
def systemRole : Str := "system".toList

/-- Role of messages written by other users. -/
def userRole : Str := "user".toList

/-- Role of messages the bot itself wrote. -/
def assistantRole : Str := "assistant".toList

/-- Type tag of a text content part. -/
def textType : Str := "text".toList

/-- Type tag of an image content part. -/
def imageUrlType : Str := "image_url".toList

/-- Prefix of the inline data URL built in buildChatHistory (main.go
line 177); the encoding is always declared as image/jpeg. -/
def dataUrlHeader : Str := "data:image/jpeg;base64,".toList

/-- Leading part of the skipped-attachment notice of main.go line 186
(the format string up to the %s verb, including the newline). -/
def noticeHead : Str := "\n【系统提示】媒体附件 ".toList

/-- Trailing part of the skipped-attachment notice of main.go line 186
(the format string after the %s verb). -/
def noticeTail : Str := " 被跳过，因为数量可能超出限制或格式不受支持".toList

/-- Display text selection of buildChatHistory (main.go lines 154-157):
prefer the plain-text field, fall back to the rich content. -/
def displayText (s : Status) : Str :=
  if s.text = [] then s.content else s.text

/-- Scan helper for filepath.Ext: the input is the path reversed, so
the scan runs from the end of the path toward its start, stopping at a
path separator; the result is the length of the extension including
its dot. -/
def extSearch : Str → Option Nat
  | [] => none
  | c :: rest =>
    if c = '/' then none
    else if c = '.' then some 1
    else (extSearch rest).map (fun n => n + 1)

/-- Model of Go filepath.Ext: the suffix beginning at the final dot in
the final element of the path, empty if there is none. -/
def filepathExt (p : Str) : Str :=
  match extSearch p.reverse with
  | none => []
  | some n => p.drop (p.length - n)

/-- Model of Go filepath.Base on a Unix path: strip trailing
separators, then keep the part after the last separator; the empty
path gives "." and an all-separator path gives "/". -/
def filepathBase (p : Str) : Str :=
  if p = [] then ['.']
  else
    let r := p.reverse.dropWhile (fun c => c = '/')
    if r = [] then ['/']
    else (r.takeWhile (fun c => c ≠ '/')).reverse

/-- Supported image extensions of isValidImageAttachment (main.go line
196). -/
def validExtensions : List Str := [".jpg".toList, ".jpeg".toList, ".png".toList]

/-- isValidImageAttachment (main.go lines 195-204): the lower-cased
path extension of the URL must be one of the supported image
extensions.  Go strings.ToLower is modelled by Char.toLower per byte
(the URLs concerned are ASCII). -/
def isValidImageAttachment (a : Attachment) : Bool :=
  validExtensions.contains ((filepathExt a.url).map Char.toLower)

/-- getBase64Image (main.go lines 206-221) fetches the raw bytes of the
URL and base64-encodes them, returning the empty string when the fetch
or the body read fails.  The oracle hands back the base64 encoding of
the fetched bytes (the encoding itself is a library call), with `none`
standing for the failure paths. -/
def getBase64Image (fetch : Str → Option Str) (url : Str) : Str :=
  (fetch url).getD []

/-- Fully-qualified bot handle botAcct of buildChatHistory (main.go
line 146): BotAccountName@FediDomain. -/
def botAcct (cfg : Config) : Str :=
  cfg.botAccountName ++ '@' :: cfg.fediDomain

/-- Fixed system message placed first by buildChatHistory (main.go
lines 134-144). -/
def systemMessage (cfg : Config) : Message :=
  ⟨systemRole, [⟨textType, cfg.systemPrompt, none⟩]⟩

/-- Unsupported-attachment branch of buildChatHistory (main.go line
186): append the skipped-attachment notice to the text of the first
content part.  The part list always starts with the text part, so the
nil case is unreachable. -/
def appendNotice (a : Attachment) (msg : Message) : Message :=
  match msg.chatContent with
  | [] => msg
  | c0 :: rest =>
    { msg with chatContent :=
        { c0 with text := c0.text ++ noticeHead ++ filepathBase a.url ++ noticeTail } :: rest }

/-- Attachment loop body of buildChatHistory (main.go lines 174-188):
a supported image is fetched, base64-encoded and appended as an
image_url content part; any other attachment only adds a notice to the
first text part. -/
def addAttachment (fetch : Str → Option Str) (msg : Message) (a : Attachment) : Message :=
  if isValidImageAttachment a then
    { msg with chatContent :=
        msg.chatContent ++ [⟨imageUrlType, [], some ⟨dataUrlHeader ++ getBase64Image fetch a.url, []⟩⟩] }
  else appendNotice a msg

/-- Per-status body of the buildChatHistory loop (main.go lines
153-189): statuses with no displayable text are skipped; otherwise a
message is built whose role is assistant exactly when the author
handle equals the bot handle, starting with one text part and folding
the attachments over it. -/
def statusToMessage (cfg : Config) (fetch : Str → Option Str) (status : Status) : Option Message :=
  if displayText status = [] then none
  else
    some (status.mediaAttachments.foldl (addAttachment fetch)
      ⟨if status.account.acct = botAcct cfg then assistantRole else userRole,
       [⟨textType, displayText status, none⟩]⟩)

/-- buildChatHistory (main.go lines 133-193): the fixed system message
followed by one message per non-skipped status of the stack taken in
reversed (chronological) order. -/
def buildChatHistory (cfg : Config) (fetch : Str → Option Str) (stack : List Status) : List Message :=
  systemMessage cfg :: stack.reverse.filterMap (statusToMessage cfg fetch)

/-- JSON values as decoded by Go encoding/json into interface{}. -/
inductive Json where
  | jnull
  | jbool (b : Bool)
  | jnum (n : Int)
  | jstr (s : Str)
  | jarr (elems : List Json)
  | jobj (fields : List (Str × Json))

/-- Lookup of a key in a decoded JSON object map. -/
def lookupField : List (Str × Json) → Str → Option Json
  | [], _ => none
  | (k, v) :: rest, key => if k = key then some v else lookupField rest key

/-- Outcome of the HTTP POST performed by callGPT (main.go lines
238-247): either the transport fails, or a response arrives with a
status code and a body; `none` for the body models a body that
json.Unmarshal cannot decode into a map (invalid JSON or a non-object
top level), which the code ignores, leaving the nil map. -/
inductive CallResult where
  | transportError
  | response (status : Nat) (body : Option Json)

/-- Fixed localized apology string returned by callGPT on every failure
path (main.go lines 245, 256, 262, 268). -/
def apology : Str := "ERROR: 与GPT服务通信失败，若问题持续，请联系管理员".toList

/-- Key of the choices array in the completion response. -/
def choicesKey : Str := "choices".toList

/-- Key of the message object in the first choice. -/
def messageKey : Str := "message".toList

/-- Key of the content string in the message object. -/
def contentKey : Str := "content".toList

/-- Classification of a completion response body by the extraction
sequence of callGPT (main.go lines 249-271). -/
inductive GPTShape where
  | ok (s : Str)
  | bad
  | crash

/-- Extraction sequence of callGPT (main.go lines 249-271):
result["choices"] must be a non-empty array (checked with the comma-ok
form, line 253); choices[0] is cast to a map with a single-value type
assertion, which panics when choices[0] is not an object (line 259,
modelled as crash); the message map and the content string are again
checked with the comma-ok form (lines 259, 265).  The HTTP status code
is never examined. -/
def classifyGPTBody (body : Option Json) : GPTShape :=
  match body with
  | some (.jobj fields) =>
    match lookupField fields choicesKey with
    | some (.jarr (c0 :: _)) =>
      match c0 with
      | .jobj cfields =>
        match lookupField cfields messageKey with
        | some (.jobj mfields) =>
          match lookupField mfields contentKey with
          | some (.jstr s) => .ok s
          | _ => .bad
        | _ => .bad
      | _ => .crash
    | _ => .bad
  | _ => .bad

/-- callGPT (main.go lines 231-272) restricted to its result logic:
transport failure and every comma-ok shape failure return the fixed
apology string; a well-shaped body returns its content string; the
unchecked type assertion on a non-object first choice panics (`none`).
The request construction only feeds the transport oracle. -/
def callGPT (res : CallResult) : Option Str :=
  match res with
  | .transportError => some apology
  | .response _ body =>
    match classifyGPTBody body with
    | .ok s => some s
    | .bad => some apology
    | .crash => none

/-- Structural deviations of the response body that the code answers
with the apology string: everything except a well-shaped body and the
panicking non-object first choice. -/
def gptShapeDeviates (body : Option Json) : Bool :=
  match classifyGPTBody body with
  | .bad => true
  | _ => false

/-- Well-shaped completion body carrying the given content string. -/
def okBody (s : Str) : Json :=
  .jobj [(choicesKey, .jarr [.jobj [(messageKey, .jobj [(contentKey, .jstr s)])]])]

/-- Visibility string constants of replyToStatus. -/
def visPublic : Str := "public".toList

/-- Visibility assigned to replies of public statuses. -/
def visUnlisted : Str := "unlisted".toList

/-- Followers-only visibility. -/
def visPrivate : Str := "private".toList

/-- Mutuals-only visibility. -/
def visMutuals : Str := "mutuals_only".toList

/-- Visibility assigned to replies of private or mutuals-only statuses. -/
def visDirect : Str := "direct".toList

/-- Content type of every created reply (main.go line 287). -/
def markdownType : Str := "text/markdown".toList

/-- Content-warning marker prepended by replyToStatus (main.go line 321). -/
def reMark : Str := "re: ".toList

/-- Visibility transform of replyToStatus (main.go lines 289, 314-319):
the params start with the source visibility, then public is rewritten
to unlisted and private or mutuals_only to direct; both rewrites test
the original source visibility. -/
def visTransform (v : Str) : Str :=
  let v1 := if v = visPublic then visUnlisted else v
  if v = visPrivate ∨ v = visMutuals then visDirect else v1

/-- Status-create request parameters assembled by replyToStatus
(main.go lines 284-322): the six interaction-policy fields hold the
first entry of the corresponding group when the source carries a
policy with a non-empty group. -/
structure CreateParams where
  status : Str
  inReplyToID : Str
  contentType : Str
  language : Str
  visibility : Str
  localOnly : Bool
  sensitive : Bool
  spoilerText : Option Str
  favAlways : Option Str
  favApproval : Option Str
  reblogAlways : Option Str
  reblogApproval : Option Str
  replyAlways : Option Str
  replyApproval : Option Str
deriving DecidableEq, Repr

/-- First entries of the six interaction-policy groups of a status, or
none when the policy is absent or a group is empty (main.go lines
293-312). -/
def policyFirsts (s : Status) : (Option Str × Option Str) × (Option Str × Option Str) × (Option Str × Option Str) :=
  match s.interactionPolicy with
  | none => ((none, none), (none, none), (none, none))
  | some p =>
    ((p.canFavourite.always.head?, p.canFavourite.withApproval.head?),
     (p.canReblog.always.head?, p.canReblog.withApproval.head?),
     (p.canReply.always.head?, p.canReply.withApproval.head?))

/-- Reply-create parameters built by replyToStatus (main.go lines
284-322) for one segment body, copying all fields from the status
passed to this call of replyToStatus. -/
def mkReplyParams (s : Status) (body : Str) : CreateParams :=
  let pf := policyFirsts s
  { status := body
    inReplyToID := s.id
    contentType := markdownType
    language := s.language
    visibility := visTransform s.visibility
    localOnly := s.localOnly
    sensitive := s.sensitive
    spoilerText := if s.spoilerText = [] then none else some (reMark ++ s.spoilerText)
    favAlways := pf.1.1
    favApproval := pf.1.2
    reblogAlways := pf.2.1.1
    reblogApproval := pf.2.1.2
    replyAlways := pf.2.2.1
    replyApproval := pf.2.2.2 }

/-- replyToStatus (main.go lines 274-339) as the list of successfully
posted create requests.  The full text is the mention of the author of
`status` followed by a space and the response; when it exceeds MaxChar
it is cut at that boundary and the remainder is dispatched recursively
with the just-created reply as the new source status, so the recursion
re-enters the mention-composition step.  A create failure aborts the
rest of the chain.  The fuel bounds the recursion depth of the Go call
stack; every theorem assumes enough fuel for the chain to complete. -/
def replyToStatus (cfg : Config) (create : CreateParams → Option Status) : Nat → Status → Str → List CreateParams
  | 0, _, _ => []
  | fuel + 1, status, response =>
    let full := ('@' :: status.account.acct) ++ ' ' :: response
    let body := if cfg.maxChar < full.length then full.take cfg.maxChar else full
    let remaining := if cfg.maxChar < full.length then full.drop cfg.maxChar else []
    let params := mkReplyParams status body
    match create params with
    | none => []
    | some reply =>
      params :: (if remaining = [] then [] else replyToStatus cfg create fuel reply remaining)

/-- Lift of an optional propagated policy entry back into a group list. -/
def optList : Option Str → List Str
  | none => []
  | some x => [x]

/-- Modelled from the spec: the Status store of §6 is an external
collaborator providing create(replyParams) -> Status; its code is not
part of this repository.  The created status echoes the requested
fields and is authored by the bot account, which is how the fediverse
server answers a successful status create. -/
def echoStatus (bot : Str) (p : CreateParams) : Status :=
  { id := []
    content := p.status
    text := []
    inReplyToID := p.inReplyToID
    account := ⟨bot⟩
    mediaAttachments := []
    language := p.language
    visibility := p.visibility
    localOnly := p.localOnly
    sensitive := p.sensitive
    spoilerText := p.spoilerText.getD []
    interactionPolicy := some
      ⟨⟨optList p.favAlways, optList p.favApproval⟩,
       ⟨optList p.reblogAlways, optList p.reblogApproval⟩,
       ⟨optList p.replyAlways, optList p.replyApproval⟩⟩ }

/-- Modelled from the spec: the create operation of the Status store,
always succeeding with the echoed status. -/
def echoCreate (bot : Str) (p : CreateParams) : Option Status :=
  some (echoStatus bot p)

/-- processNotification (main.go lines 90-102) for one mention: resolve
the thread, build the transcript, call the completion gateway and
dispatch the reply chain; an empty response posts nothing, and a
gateway panic propagates.  The gpt oracle maps the transcript to the
transport outcome of the completion request. -/
def processNotification (cfg : Config) (fetchStatus : Str → Option Status)
    (fetchImg : Str → Option Str) (gpt : List Message → CallResult)
    (create : CreateParams → Option Status) (fuel : Nat) (status : Status) :
    Option (List CreateParams) :=
  let stack := buildConversationStack cfg fetchStatus status
  let history := buildChatHistory cfg fetchImg stack
  match callGPT (gpt history) with
  | none => none
  | some response =>
    if response = [] then some []
    else some (replyToStatus cfg create fuel status response)

/-- Content-warning marker repeated n times, for stating how the
recursive dispatch accumulates the marker. -/
def rePow : Nat → Str
  | 0 => []
  | n + 1 => reMark ++ rePow n

/-- Spoiler text carried by the status reached after j dispatch hops
from the source: empty when the source has no spoiler, otherwise the
marker repeated j times in front of the source spoiler. -/
def spoilerAt (src : Status) (j : Nat) : Str :=
  if src.spoilerText = [] then [] else rePow j ++ src.spoilerText

/-- Invariant tying the status used as the dispatch source after j hops
back to the original source status: the copied fields are unchanged,
the visibility has been through the transform once when j > 0, the
spoiler carries j markers, and the propagated policy firsts agree. -/
def DerivedFrom (src : Status) (j : Nat) (s : Status) : Prop :=
  s.language = src.language ∧
  s.localOnly = src.localOnly ∧
  s.sensitive = src.sensitive ∧
  s.visibility = (if j = 0 then src.visibility else visTransform src.visibility) ∧
  s.spoilerText = spoilerAt src j ∧
  policyFirsts s = policyFirsts src

/-- Field contract of the n-th attribute copy in a dispatch chain for
the source status src: content type, language, local-only flag,
sensitivity, transformed visibility and policy firsts are the ones
derived from src, while the content warning carries the marker n
times. -/
def SegmentFields (src : Status) (n : Nat) (p : CreateParams) : Prop :=
  p.contentType = markdownType ∧
  p.language = src.language ∧
  p.localOnly = src.localOnly ∧
  p.sensitive = src.sensitive ∧
  p.visibility = visTransform src.visibility ∧
  p.spoilerText = (if src.spoilerText = [] then none else some (rePow n ++ src.spoilerText)) ∧
  ((p.favAlways, p.favApproval), (p.reblogAlways, p.reblogApproval),
    (p.replyAlways, p.replyApproval)) = policyFirsts src

/-- Default create parameters, used only as the out-of-range value of
positional access in statements. -/
def emptyParams : CreateParams :=
  ⟨[], [], [], [], [], false, false, none, none, none, none, none, none, none⟩

/-- Reply chain posted for a source status and response text against
the echoing status store. -/
def chainOf (cfg : Config) (bot : Str) (fuel : Nat) (src : Status) (resp : Str) : List CreateParams :=
  replyToStatus cfg (echoCreate bot) fuel src resp

/-- Splitting contract of the dispatch chain: the chain is non-empty,
every posted body fits MaxChar, the first body starts with the mention
of the source author, every later body starts with the mention of the
bot, and dropping each body its own mention prefix and concatenating
recovers the response text exactly. -/
def SplitLossless (cfg : Config) (bot : Str) (fuel : Nat) (src : Status) (resp : Str) : Prop :=
  ∃ p0 rest, chainOf cfg bot fuel src resp = p0 :: rest ∧
    (∀ p ∈ p0 :: rest, p.status.length ≤ cfg.maxChar) ∧
    p0.status.take (src.account.acct.length + 2) = '@' :: src.account.acct ++ [' '] ∧
    (∀ p ∈ rest, p.status.take (bot.length + 2) = '@' :: bot ++ [' ']) ∧
    p0.status.drop (src.account.acct.length + 2) ++
      (rest.map (fun p => p.status.drop (bot.length + 2))).flatten = resp

/-- Attribute contract of the dispatch chain: the k-th posted segment
carries the fields of SegmentFields with k+1 content-warning markers. -/
def SegmentsDerived (cfg : Config) (bot : Str) (fuel : Nat) (src : Status) (resp : Str) : Prop :=
  ∀ k, k < (chainOf cfg bot fuel src resp).length →
    SegmentFields src (k + 1) ((chainOf cfg bot fuel src resp).getD k emptyParams)

/-- Combined chain contract relative to a dispatch source s reached
after j hops from src, used as the induction invariant. -/
def ChainOK (cfg : Config) (bot : Str) (src : Status) (j fuel : Nat) (s : Status) (resp : Str) : Prop :=
  ∃ p0 rest,
    replyToStatus cfg (echoCreate bot) fuel s resp = p0 :: rest ∧
    (∀ p ∈ p0 :: rest, p.status.length ≤ cfg.maxChar) ∧
    (∀ k, k < (p0 :: rest).length → SegmentFields src (j + 1 + k) ((p0 :: rest).getD k emptyParams)) ∧
    p0.status.take (s.account.acct.length + 2) = '@' :: s.account.acct ++ [' '] ∧
    (∀ p ∈ rest, p.status.take (bot.length + 2) = '@' :: bot ++ [' ']) ∧
    p0.status.drop (s.account.acct.length + 2) ++
      (rest.map (fun p => p.status.drop (bot.length + 2))).flatten = resp

/-- Empty status used as the base of the concrete test fixtures. -/
def baseStatus : Status :=
  ⟨[], [], [], [], ⟨[]⟩, [], [], [], false, false, [], none⟩

/-- Configuration fixture for the trimming inputs: character budget 3. -/
def cfgTrim3 : Config :=
  { fediDomain := [], botAccountName := [], maxChar := 450
    maxHistoryCount := 6, maxHistoryChar := 3, systemPrompt := [] }

/-- Newest entry (the leaf, index 0) of the trimming fixture. -/
def stNew : Status := { baseStatus with id := "new".toList, content := "aa".toList }

/-- Middle entry of the trimming fixture. -/
def stMid : Status := { baseStatus with id := "mid".toList, content := "bb".toList }

/-- Oldest entry (last index) of the trimming fixture. -/
def stOld : Status := { baseStatus with id := "old".toList, content := "cc".toList }

/-- Configuration fixture for thread resolution with budget 4. -/
def cfgStack4 : Config :=
  { fediDomain := [], botAccountName := [], maxChar := 450
    maxHistoryCount := 6, maxHistoryChar := 4, systemPrompt := [] }

/-- Leaf status whose content length 5 alone exceeds the budget 4. -/
def leafBig : Status := { baseStatus with id := "leaf".toList, content := "xxxxx".toList }

/-- Configuration fixture for the oversized-single-entry input, budget 6. -/
def cfgTrim6 : Config :=
  { fediDomain := [], botAccountName := [], maxChar := 450
    maxHistoryCount := 6, maxHistoryChar := 6, systemPrompt := [] }

/-- Single entry whose content length 7 exceeds the budget 6. -/
def stHuge : Status := { baseStatus with id := "huge".toList, content := "zzzzzzz".toList }

/-- Configuration fixture with a full bot identity. -/
def cfgRole : Config :=
  { fediDomain := "example.org".toList, botAccountName := "bot".toList, maxChar := 450
    maxHistoryCount := 6, maxHistoryChar := 5000, systemPrompt := "prompt".toList }

/-- Status fixture authored by the bot account itself. -/
def stBot : Status :=
  { baseStatus with text := "ok".toList, account := ⟨"bot@example.org".toList⟩ }

/-- Message built from stBot. -/
def msgBot : Message := ⟨assistantRole, [⟨textType, "ok".toList, none⟩]⟩

/-- Attachment fixture with a supported image extension. -/
def attJpg : Attachment := ⟨"http://x/a.jpg".toList⟩

/-- Status fixture with text and one supported image attachment. -/
def stImg : Status := { baseStatus with text := "hi".toList, mediaAttachments := [attJpg] }

/-- Message built from stImg when the image fetch fails: the text part
is unchanged and an image part with an empty base64 payload follows. -/
def msgImgFail : Message :=
  ⟨userRole, [⟨textType, "hi".toList, none⟩, ⟨imageUrlType, [], some ⟨dataUrlHeader, []⟩⟩]⟩

/-- Configuration fixture for reply dispatch with MaxChar = 5. -/
def cfgSplit : Config :=
  { fediDomain := "example.org".toList, botAccountName := "b".toList, maxChar := 5
    maxHistoryCount := 6, maxHistoryChar := 5000, systemPrompt := [] }

/-- Source status of the dispatch fixtures, authored by user a. -/
def srcSplit : Status := { baseStatus with id := "src".toList, account := ⟨"a".toList⟩ }

/-- Handle of the bot account as the status store reports it. -/
def botB : Str := "b".toList

/-- Source status of the attribute-propagation fixtures: public
visibility, a content warning and an interaction policy. -/
def srcCW : Status :=
  { baseStatus with
    id := "cw".toList, account := ⟨"a".toList⟩
    spoilerText := "s".toList, visibility := visPublic, language := "en".toList
    localOnly := true, sensitive := true
    interactionPolicy := some ⟨⟨["x".toList], []⟩, ⟨[], []⟩, ⟨[], ["y".toList]⟩⟩ }

/-- Mention status fixture for the pipeline run. -/
def stPing : Status := { baseStatus with content := "q".toList }

/-- Claim C1: on the stack [stNew, stMid, stOld] (leaf first, content
lengths 2, 2, 2) with MaxHistoryChar = 3, the scan from the oldest end
first exceeds the budget at stMid, so the claim says the retained
slice is the entries newer than stMid, namely [stNew].  The code
instead returns stack[i+1:] = [stOld]: it keeps the oldest entry and
drops the newest entries, including the leaf. -/
theorem trimStackToMaxChar_keeps_oldest :
    trimStackToMaxChar cfgTrim3 [stNew, stMid, stOld] = [stOld] ∧
    stNew ∉ trimStackToMaxChar cfgTrim3 [stNew, stMid, stOld] ∧
    trimStackToMaxChar cfgTrim3 [stNew, stMid, stOld] ≠ [stNew] := by
  decide

/-- Claim C2: a leaf with no parent whose content length 5 exceeds
MaxHistoryChar = 4 resolves to the empty history: trimStackToMaxChar
overflows at index 0 and returns stack[0+1:] = [], so the returned
ThreadHistory is empty and does not contain the triggering status,
contradicting the never-empty invariant. -/
theorem buildConversationStack_drops_trigger :
    buildConversationStack cfgStack4 (fun _ => none) leafBig = [] ∧
    leafBig ∉ buildConversationStack cfgStack4 (fun _ => none) leafBig := by
  decide

/-- Claim C7: when a single entry alone exceeds the budget the claim
says that entry is still retained; the code drops it and returns the
empty slice (the cumulative length of the result is therefore always
within budget, with emptiness instead of the claimed retention). -/
theorem trimStackToMaxChar_drops_oversized :
    trimStackToMaxChar cfgTrim6 [stHuge] = [] ∧
    stHuge ∉ trimStackToMaxChar cfgTrim6 [stHuge] := by
  decide

/-- Adding an attachment to a message never changes its role. -/
theorem addAttachment_role (fetch : Str → Option Str) (msg : Message) (a : Attachment) :
    (addAttachment fetch msg a).role = msg.role := by
  unfold addAttachment appendNotice
  split
  · rfl
  · split <;> rfl

/-- Folding any attachment list over a message keeps its role. -/
theorem foldl_addAttachment_role (fetch : Str → Option Str) (l : List Attachment) (msg : Message) :
    (l.foldl (addAttachment fetch) msg).role = msg.role := by
  induction l generalizing msg with
  | nil => rfl
  | cons a l ih => rw [List.foldl_cons, ih, addAttachment_role]

/-- A status yields a message exactly when its displayable text is
non-empty. -/
theorem statusToMessage_isSome (cfg : Config) (fetch : Str → Option Str) (s : Status) :
    (statusToMessage cfg fetch s).isSome = !(displayText s).isEmpty := by
  cases hd : displayText s with
  | nil => simp [statusToMessage, hd]
  | cons a l => simp [statusToMessage, hd]

/-- Claim C8: the transcript starts with the system message carrying
the configured prompt, and the remaining messages are in one-to-one
correspondence with the history entries whose displayable text is
non-empty. -/
theorem buildChatHistory_shape (cfg : Config) (fetch : Str → Option Str) (stack : List Status) :
    (buildChatHistory cfg fetch stack).head? = some (systemMessage cfg) ∧
    (buildChatHistory cfg fetch stack).length =
      1 + (stack.filter (fun s => !(displayText s).isEmpty)).length := by
  refine ⟨rfl, ?_⟩
  simp only [buildChatHistory, List.length_cons, List.filterMap_reverse, List.length_reverse]
  rw [List.length_filterMap_eq_countP, List.countP_eq_length_filter, Nat.add_comm]
  congr 2
  apply List.filter_congr
  intro s _
  rw [statusToMessage_isSome]

/-- Claim C9: the message built from a non-skipped status has role
assistant exactly when the author handle equals BotAccountName@FediDomain. -/
theorem statusToMessage_role (cfg : Config) (fetch : Str → Option Str) (s : Status) (m : Message)
    (h : statusToMessage cfg fetch s = some m) :
    (m.role = assistantRole ↔ s.account.acct = botAcct cfg) := by
  unfold statusToMessage at h
  by_cases ht : displayText s = []
  · rw [if_pos ht] at h
    exact absurd h (by simp)
  · rw [if_neg ht] at h
    have hm := (Option.some.inj h).symm
    subst hm
    rw [foldl_addAttachment_role]
    show (if s.account.acct = botAcct cfg then assistantRole else userRole) = assistantRole ↔ _
    by_cases hacct : s.account.acct = botAcct cfg
    · simp [hacct]
    · rw [if_neg hacct]
      exact ⟨fun hu => absurd hu (by decide), fun hc => absurd hc hacct⟩

/-- Witness for claim C9 at the concrete bot-authored status. -/
theorem statusToMessage_role_witness :
    statusToMessage cfgRole (fun _ => none) stBot = some msgBot ∧
    (msgBot.role = assistantRole ↔ stBot.account.acct = botAcct cfgRole) :=
  ⟨by decide, statusToMessage_role cfgRole (fun _ => none) stBot msgBot (by decide)⟩

/-- Counterexample to claim C6: a supported image attachment whose
fetch fails still produces a content part — the message for stImg has
two parts, the unchanged text part plus an image part whose data URL
carries an empty base64 payload — while the claim says the failed
image contributes no content part. -/
theorem imageFailure_appends_part :
    statusToMessage cfgRole (fun _ => none) stImg = some msgImgFail ∧
    msgImgFail.chatContent.length = 2 ∧
    msgImgFail.chatContent.length ≠ 1 := by
  decide

/-- Amended claim C6: when the fetch of a supported image attachment
fails, no visible notice is added to the message text, but an image
content part is still appended whose data URL is the bare
image/jpeg;base64 header with an empty payload, because getBase64Image
returns the empty string on failure and the builder does not check it. -/
theorem imageFailure_empty_part (cfg : Config) (fetch : Str → Option Str) (st : Status)
    (a : Attachment) (hatt : st.mediaAttachments = [a])
    (hval : isValidImageAttachment a = true) (hfail : fetch a.url = none)
    (ht : displayText st ≠ []) :
    statusToMessage cfg fetch st = some
      ⟨if st.account.acct = botAcct cfg then assistantRole else userRole,
       [⟨textType, displayText st, none⟩, ⟨imageUrlType, [], some ⟨dataUrlHeader, []⟩⟩]⟩ := by
  unfold statusToMessage
  rw [if_neg ht, hatt]
  simp [addAttachment, hval, getBase64Image, hfail]

/-- Witness for amended claim C6 at the concrete failing fetch. -/
theorem imageFailure_empty_part_witness :
    stImg.mediaAttachments = [attJpg] ∧
    isValidImageAttachment attJpg = true ∧
    (fun _ => (none : Option Str)) attJpg.url = none ∧
    displayText stImg ≠ [] ∧
    statusToMessage cfgRole (fun _ => none) stImg = some
      ⟨if stImg.account.acct = botAcct cfgRole then assistantRole else userRole,
       [⟨textType, displayText stImg, none⟩, ⟨imageUrlType, [], some ⟨dataUrlHeader, []⟩⟩]⟩ :=
  ⟨rfl, by decide, rfl, by decide,
    imageFailure_empty_part cfgRole (fun _ => none) stImg attJpg rfl (by decide) rfl (by decide)⟩

/-- Counterexample to claim C5: an HTTP 500 response whose body is
well-shaped does not yield the apology string — callGPT never examines
the status code and returns the content of the body. -/
theorem callGPT_status500_content :
    callGPT (CallResult.response 500 (some (okBody "hi".toList))) = some "hi".toList ∧
    "hi".toList ≠ apology := by
  decide

/-- Amended claim C5: callGPT answers transport failure and every
comma-ok structural deviation of the body (unparseable body, missing
or empty choices, message missing or not an object, content missing or
not a string) with the fixed apology string, and it never examines the
HTTP status code; a non-200 response with a well-shaped body yields
that body content, and a non-object first choice panics instead of
producing the apology. -/
theorem callGPT_failure_paths :
    callGPT CallResult.transportError = some apology ∧
    (∀ st : Nat, ∀ body : Option Json, gptShapeDeviates body = true →
      callGPT (CallResult.response st body) = some apology) ∧
    (∀ s1 s2 : Nat, ∀ body : Option Json,
      callGPT (CallResult.response s1 body) = callGPT (CallResult.response s2 body)) := by
  refine ⟨rfl, ?_, ?_⟩
  · intro st body h
    unfold gptShapeDeviates at h
    simp only [callGPT]
    cases hc : classifyGPTBody body with
    | ok s => rw [hc] at h; simp at h
    | bad => rfl
    | crash => rw [hc] at h; simp at h
  · intro s1 s2 body
    rfl

/-- Witness for amended claim C5 at a concrete malformed body. -/
theorem callGPT_failure_paths_witness :
    gptShapeDeviates (some (Json.jobj [])) = true ∧
    callGPT (CallResult.response 500 (some (Json.jobj []))) = some apology :=
  ⟨by decide, callGPT_failure_paths.2.1 500 (some (Json.jobj [])) (by decide)⟩

/-- Claim C10: when the completion gateway hands the mention processor
the empty string, no reply is dispatched for that mention. -/
theorem processNotification_empty_response (cfg : Config) (fetchStatus : Str → Option Status)
    (fetchImg : Str → Option Str) (gpt : List Message → CallResult)
    (create : CreateParams → Option Status) (fuel : Nat) (status : Status)
    (h : callGPT (gpt (buildChatHistory cfg fetchImg
      (buildConversationStack cfg fetchStatus status))) = some []) :
    processNotification cfg fetchStatus fetchImg gpt create fuel status = some [] := by
  simp only [processNotification]
  rw [h]
  simp

/-- Witness for claim C10: a well-shaped completion response whose
content is the empty string makes the pipeline post nothing. -/
theorem processNotification_empty_response_witness :
    callGPT ((fun _ => CallResult.response 200 (some (okBody [])))
      (buildChatHistory cfgRole (fun _ => none)
        (buildConversationStack cfgRole (fun _ => none) stPing))) = some [] ∧
    processNotification cfgRole (fun _ => none) (fun _ => none)
      (fun _ => CallResult.response 200 (some (okBody []))) (echoCreate botB) 3 stPing = some [] :=
  ⟨by decide,
    processNotification_empty_response cfgRole (fun _ => none) (fun _ => none)
      (fun _ => CallResult.response 200 (some (okBody []))) (echoCreate botB) 3 stPing (by decide)⟩

/-- The visibility transform is idempotent: unlisted and direct are
fixed points and every other value is already fixed. -/
theorem visTransform_idem (v : Str) : visTransform (visTransform v) = visTransform v := by
  by_cases hp : v = visPrivate ∨ v = visMutuals
  · have hv : visTransform v = visDirect := by
      simp only [visTransform, if_pos hp]
    rw [hv]; decide
  · by_cases hpub : v = visPublic
    · have hv : visTransform v = visUnlisted := by
        simp only [visTransform, if_neg hp, if_pos hpub]
      rw [hv]; decide
    · have hv : visTransform v = v := by
        simp only [visTransform, if_neg hp, if_neg hpub]
      rw [hv]; exact hv

/-- Zero hops leave the source spoiler text unchanged. -/
theorem spoilerAt_zero (src : Status) : spoilerAt src 0 = src.spoilerText := by
  unfold spoilerAt
  by_cases h : src.spoilerText = []
  · rw [if_pos h, h]
  · rw [if_neg h]; rfl

/-- The head of the lifted singleton group is the propagated entry. -/
theorem optList_head (o : Option Str) : (optList o).head? = o := by
  cases o <;> rfl

/-- The source itself is the status reached after zero hops. -/
theorem DerivedFrom_refl (src : Status) : DerivedFrom src 0 src :=
  ⟨rfl, rfl, rfl, by rw [if_pos rfl], (spoilerAt_zero src).symm, rfl⟩

/-- The params built from a status reached after j hops satisfy the
segment field contract at j+1 markers. -/
theorem mkReplyParams_fields (src s : Status) (j : Nat) (body : Str)
    (hD : DerivedFrom src j s) : SegmentFields src (j + 1) (mkReplyParams s body) := by
  obtain ⟨hl, ho, hs, hv, hsp, hpf⟩ := hD
  refine ⟨rfl, hl, ho, hs, ?_, ?_, ?_⟩
  · show visTransform s.visibility = visTransform src.visibility
    rw [hv]
    by_cases hj : j = 0
    · rw [if_pos hj]
    · rw [if_neg hj, visTransform_idem]
  · show (if s.spoilerText = [] then none else some (reMark ++ s.spoilerText)) = _
    rw [hsp]
    by_cases he : src.spoilerText = []
    · simp [spoilerAt, he]
    · have hne : spoilerAt src j ≠ [] := by
        simp [spoilerAt, he]
      rw [if_neg hne, if_neg he]
      unfold spoilerAt
      rw [if_neg he]
      show some (reMark ++ (rePow j ++ src.spoilerText)) = some (rePow (j + 1) ++ src.spoilerText)
      rw [show rePow (j + 1) = reMark ++ rePow j from rfl, List.append_assoc]
  · show (((policyFirsts s).1.1, (policyFirsts s).1.2),
        ((policyFirsts s).2.1.1, (policyFirsts s).2.1.2),
        ((policyFirsts s).2.2.1, (policyFirsts s).2.2.2)) = policyFirsts src
    rw [hpf]

/-- The echoed reply to params satisfying the segment contract at j+1
markers is itself a status derived after j+1 hops. -/
theorem echoStatus_derived (src : Status) (bot : Str) (j : Nat) (p : CreateParams)
    (hp : SegmentFields src (j + 1) p) : DerivedFrom src (j + 1) (echoStatus bot p) := by
  obtain ⟨hct, hl, ho, hs, hv, hsp, hpf⟩ := hp
  refine ⟨hl, ho, hs, ?_, ?_, ?_⟩
  · show p.visibility = _
    rw [hv, if_neg (Nat.succ_ne_zero j)]
  · show p.spoilerText.getD [] = spoilerAt src (j + 1)
    rw [hsp]
    unfold spoilerAt
    by_cases he : src.spoilerText = []
    · rw [if_pos he, if_pos he]; rfl
    · rw [if_neg he, if_neg he]; rfl
  · show (((optList p.favAlways).head?, (optList p.favApproval).head?),
        ((optList p.reblogAlways).head?, (optList p.reblogApproval).head?),
        ((optList p.replyAlways).head?, (optList p.replyApproval).head?)) = policyFirsts src
    simp only [optList_head]
    exact hpf

/-- Step equation of replyToStatus against the echoing store when the
full text fits within MaxChar: a single segment is posted. -/
theorem chain_fit (cfg : Config) (bot : Str) (fuel : Nat) (s : Status) (resp : Str)
    (h : ¬ cfg.maxChar < (('@' :: s.account.acct) ++ ' ' :: resp).length) :
    replyToStatus cfg (echoCreate bot) (fuel + 1) s resp =
      [mkReplyParams s (('@' :: s.account.acct) ++ ' ' :: resp)] := by
  simp only [replyToStatus, if_neg h, echoCreate]
  simp

/-- Step equation of replyToStatus against the echoing store when the
full text exceeds MaxChar: the cut segment is posted and the remainder
is dispatched from the echoed reply. -/
theorem chain_split (cfg : Config) (bot : Str) (fuel : Nat) (s : Status) (resp : Str)
    (h : cfg.maxChar < (('@' :: s.account.acct) ++ ' ' :: resp).length)
    (hrem : (('@' :: s.account.acct) ++ ' ' :: resp).drop cfg.maxChar ≠ []) :
    replyToStatus cfg (echoCreate bot) (fuel + 1) s resp =
      mkReplyParams s ((('@' :: s.account.acct) ++ ' ' :: resp).take cfg.maxChar) ::
        replyToStatus cfg (echoCreate bot) fuel
          (echoStatus bot (mkReplyParams s ((('@' :: s.account.acct) ++ ' ' :: resp).take cfg.maxChar)))
          ((('@' :: s.account.acct) ++ ' ' :: resp).drop cfg.maxChar) := by
  simp only [replyToStatus, if_pos h, echoCreate, if_neg hrem]

/-- Invariant of the recursive dispatch against the echoing store: with
enough fuel and mention handles shorter than MaxChar, the chain from a
status derived after j hops is non-empty, every body fits MaxChar,
segment fields accumulate markers from j+1 on, every body starts with
its own mention prefix, and stripping the prefixes recovers the text. -/
theorem chainSpec (cfg : Config) (bot : Str) (src : Status)
    (hB : bot.length + 3 ≤ cfg.maxChar) :
    ∀ fuel (s : Status) (resp : Str) (j : Nat),
      s.account.acct.length + 3 ≤ cfg.maxChar →
      DerivedFrom src j s →
      resp.length < fuel →
      ChainOK cfg bot src j fuel s resp := by
  intro fuel
  induction fuel with
  | zero =>
    intro s resp j _ _ hf
    exact absurd hf (Nat.not_lt_zero _)
  | succ f ih =>
    intro s resp j hA hD hf
    have hfulllen : (('@' :: s.account.acct) ++ ' ' :: resp).length
        = s.account.acct.length + 2 + resp.length := by
      simp [List.length_append]
      omega
    have hfp : ('@' :: s.account.acct) ++ ' ' :: resp
        = (('@' :: s.account.acct) ++ [' ']) ++ resp := by
      simp
    have hplen : (('@' :: s.account.acct) ++ [' ']).length = s.account.acct.length + 2 := by
      simp
    by_cases hsplit : cfg.maxChar < (('@' :: s.account.acct) ++ ' ' :: resp).length
    · have hsplitN : cfg.maxChar < s.account.acct.length + 2 + resp.length := by
        rw [← hfulllen]; exact hsplit
      have hrempos : (('@' :: s.account.acct) ++ ' ' :: resp).drop cfg.maxChar ≠ [] := by
        apply List.ne_nil_of_length_pos
        rw [List.length_drop, hfulllen]
        omega
      have hPF := mkReplyParams_fields src s j
        ((('@' :: s.account.acct) ++ ' ' :: resp).take cfg.maxChar) hD
      have hD2 := echoStatus_derived src bot j _ hPF
      have hflen : ((('@' :: s.account.acct) ++ ' ' :: resp).drop cfg.maxChar).length < f := by
        rw [List.length_drop, hfulllen]
        omega
      have hA2 : (echoStatus bot (mkReplyParams s
          ((('@' :: s.account.acct) ++ ' ' :: resp).take cfg.maxChar))).account.acct.length + 3
          ≤ cfg.maxChar := hB
      obtain ⟨q0, qrest, hqeq, hqlen, hqfields, hqtake, hqrest, hqconcat⟩ :=
        ih (echoStatus bot (mkReplyParams s
            ((('@' :: s.account.acct) ++ ' ' :: resp).take cfg.maxChar)))
          ((('@' :: s.account.acct) ++ ' ' :: resp).drop cfg.maxChar) (j + 1) hA2 hD2 hflen
      refine ⟨mkReplyParams s ((('@' :: s.account.acct) ++ ' ' :: resp).take cfg.maxChar),
        q0 :: qrest, ?_, ?_, ?_, ?_, ?_, ?_⟩
      · rw [chain_split cfg bot f s resp hsplit hrempos, hqeq]
      · intro p hp
        rcases List.mem_cons.mp hp with rfl | hp2
        · show ((('@' :: s.account.acct) ++ ' ' :: resp).take cfg.maxChar).length ≤ cfg.maxChar
          exact List.length_take_le _ _
        · exact hqlen p hp2
      · intro k hk
        cases k with
        | zero =>
          exact hPF
        | succ k2 =>
          have hk2 : k2 < (q0 :: qrest).length := by
            simp only [List.length_cons] at hk ⊢
            omega
          have hfi := hqfields k2 hk2
          have harith : j + 1 + 1 + k2 = j + 1 + (k2 + 1) := by omega
          rw [harith] at hfi
          exact hfi
      · show ((('@' :: s.account.acct) ++ ' ' :: resp).take cfg.maxChar).take
            (s.account.acct.length + 2) = '@' :: s.account.acct ++ [' ']
        rw [List.take_take, Nat.min_eq_left (by omega), hfp, List.take_left' hplen]
      · intro p hp
        rcases List.mem_cons.mp hp with rfl | hp2
        · exact hqtake
        · exact hqrest p hp2
      · have hqc : q0.status.drop (bot.length + 2) ++
            (qrest.map (fun p => p.status.drop (bot.length + 2))).flatten
            = (('@' :: s.account.acct) ++ ' ' :: resp).drop cfg.maxChar := hqconcat
        have hbd : ((('@' :: s.account.acct) ++ ' ' :: resp).take cfg.maxChar).drop
              (s.account.acct.length + 2)
            = resp.take (cfg.maxChar - (s.account.acct.length + 2)) := by
          rw [List.drop_take, hfp, List.drop_left' hplen]
        have hrd : (('@' :: s.account.acct) ++ ' ' :: resp).drop cfg.maxChar
            = resp.drop (cfg.maxChar - (s.account.acct.length + 2)) := by
          rw [hfp]
          nth_rewrite 1 [show cfg.maxChar = (('@' :: s.account.acct) ++ [' ']).length +
            (cfg.maxChar - (s.account.acct.length + 2)) from by rw [hplen]; omega]
          exact List.drop_append _
        show ((('@' :: s.account.acct) ++ ' ' :: resp).take cfg.maxChar).drop
            (s.account.acct.length + 2) ++
            ((q0 :: qrest).map (fun p => p.status.drop (bot.length + 2))).flatten = resp
        rw [List.map_cons, List.flatten_cons, hqc, hrd, hbd, List.take_append_drop]
    · refine ⟨mkReplyParams s (('@' :: s.account.acct) ++ ' ' :: resp), [], ?_, ?_, ?_, ?_, ?_, ?_⟩
      · exact chain_fit cfg bot f s resp hsplit
      · intro p hp
        rcases List.mem_cons.mp hp with rfl | hp2
        · show (('@' :: s.account.acct) ++ ' ' :: resp).length ≤ cfg.maxChar
          exact Nat.not_lt.mp hsplit
        · exact absurd hp2 (List.not_mem_nil p)
      · intro k hk
        cases k with
        | zero => exact mkReplyParams_fields src s j _ hD
        | succ k2 =>
          exact absurd hk (by simp)
      · show (('@' :: s.account.acct) ++ ' ' :: resp).take (s.account.acct.length + 2)
            = '@' :: s.account.acct ++ [' ']
        rw [hfp, List.take_left' hplen]
      · intro p hp
        exact absurd hp (List.not_mem_nil p)
      · show (('@' :: s.account.acct) ++ ' ' :: resp).drop (s.account.acct.length + 2) ++
            (([] : List CreateParams).map (fun p => p.status.drop (bot.length + 2))).flatten = resp
        rw [hfp, List.drop_left' hplen]
        simp

/-- Counterexample to claim C3: with MaxChar = 5, author a, bot b and
response xxxxx, the posted bodies are [@a xx, @b xx, @b x]: the second
and third segments are re-prefixed with the bot mention (the recursive
call composes @<author of the previous reply> again), and stripping
the mention prefix from only the first segment and concatenating gives
xx@b xx@b x, not the original response. -/
theorem replyChain_reprefixes :
    (chainOf cfgSplit botB 10 srcSplit ("xxxxx".toList)).map (fun p => p.status) =
      ["@a xx".toList, "@b xx".toList, "@b x".toList] ∧
    ("@a xx".toList).drop 3 ++ "@b xx".toList ++ "@b x".toList ≠ "xxxxx".toList ∧
    ("@b xx".toList).take 3 = "@b ".toList := by
  decide

/-- Claim C3 (amended): with every mention handle shorter than MaxChar
and enough fuel, dispatch splits the text into bodies of at most
MaxChar, the first body carries the mention of the source author,
every later body carries the mention of the bot (remainders ARE
re-prefixed), and stripping each body its own mention prefix and
concatenating recovers the response text exactly. -/
theorem replyDispatch_split (cfg : Config) (bot : Str) (src : Status) (resp : Str) (fuel : Nat)
    (hA : src.account.acct.length + 3 ≤ cfg.maxChar)
    (hB : bot.length + 3 ≤ cfg.maxChar)
    (hf : resp.length < fuel) :
    SplitLossless cfg bot fuel src resp := by
  obtain ⟨p0, rest, heq, hlen, _hf2, htake, hrest, hconcat⟩ :=
    chainSpec cfg bot src hB fuel src resp 0 hA (DerivedFrom_refl src) hf
  exact ⟨p0, rest, heq, hlen, htake, hrest, hconcat⟩

/-- Witness for amended claim C3 at the concrete split fixture. -/
theorem replyDispatch_split_witness :
    srcSplit.account.acct.length + 3 ≤ cfgSplit.maxChar ∧
    botB.length + 3 ≤ cfgSplit.maxChar ∧
    ("hello".toList).length < 9 ∧
    SplitLossless cfgSplit botB 9 srcSplit ("hello".toList) :=
  ⟨by decide, by decide, by decide,
    replyDispatch_split cfgSplit botB srcSplit ("hello".toList) 9 (by decide) (by decide)
      (by decide)⟩

/-- Counterexample to claim C4: with source content warning s, the
first posted segment carries re: s but the second carries re: re: s,
because each segment copies the spoiler of its immediate parent (the
previously created reply), not of the original source. -/
theorem replyChain_cw_accumulates :
    (chainOf cfgSplit botB 9 srcCW ("xxx".toList)).map (fun p => p.spoilerText) =
      [some ("re: s".toList), some ("re: re: s".toList)] ∧
    some ("re: re: s".toList) ≠ some ("re: s".toList) := by
  decide

/-- Claim C4 (amended): every posted segment copies its fields from its
immediate parent (the source for the first segment, the previously
created reply for later ones).  Language, local-only, sensitivity,
content type, visibility (one application of the transform, which is
idempotent) and the propagated interaction-policy firsts therefore
coincide with the values derived from the original source for every
segment, but the content warning accumulates one re: marker per
segment: segment k carries k+1 markers in front of the original
spoiler (and no warning when the source has none). -/
theorem replyDispatch_fields (cfg : Config) (bot : Str) (src : Status) (resp : Str) (fuel : Nat)
    (hA : src.account.acct.length + 3 ≤ cfg.maxChar)
    (hB : bot.length + 3 ≤ cfg.maxChar)
    (hf : resp.length < fuel) :
    SegmentsDerived cfg bot fuel src resp := by
  obtain ⟨p0, rest, heq, _hlen, hfields, _ht, _hr, _hc⟩ :=
    chainSpec cfg bot src hB fuel src resp 0 hA (DerivedFrom_refl src) hf
  intro k hk
  have heq2 : chainOf cfg bot fuel src resp = p0 :: rest := heq
  rw [heq2] at hk ⊢
  have hfi := hfields k hk
  have harith : 0 + 1 + k = k + 1 := by omega
  rw [harith] at hfi
  exact hfi

/-- Witness for amended claim C4 at the concrete content-warning
fixture. -/
theorem replyDispatch_fields_witness :
    srcCW.account.acct.length + 3 ≤ cfgSplit.maxChar ∧
    botB.length + 3 ≤ cfgSplit.maxChar ∧
    ("xxx".toList).length < 9 ∧
    SegmentsDerived cfgSplit botB 9 srcCW ("xxx".toList) :=
  ⟨by decide, by decide, by decide,
    replyDispatch_fields cfgSplit botB srcCW ("xxx".toList) 9 (by decide) (by decide)
      (by decide)⟩
